import Mathlib

/-!
Shallow embedding of the MEAS MS58XX altimeter driver
(`drivers/sensors/ms58xx.c`) and proofs about its core routines:
CRC validation, PROM calibration loading, oversampling configuration,
ADC conversion sequencing, and the measurement/compensation engine.

Conventions of the embedding:
* Machine integers become `Nat` (for the unsigned fields) and `Int`
  (for the signed computation), with explicit `% 2^w` where C truncates.
* C's signed division truncates toward zero, so it is `Int.tdiv`.
* Error codes are plain `Int` negated errno values (`-5` = `-EIO`,
  `-19` = `-ENODEV`, `-22` = `-EINVAL`); a C return `ret < 0` is an
  error, success is modelled as `0`.
* I2C transactions are modelled by their outcomes: each bus phase
  yields a return code (`Int`, negative on failure) and, for reads,
  the bytes delivered to the buffer.
* The driver runs on the little-endian LPC4337 target of this
  repository, so the `(uint8_t *)prom` cast in `ms58xx_readprom`
  serializes each `uint16_t` least-significant byte first.
-/

/-- The `enum ms58xx_model_e` of supported sensor part numbers. -/
inductive Model where
  | ms5803_02
  | ms5803_05
  | ms5803_07
  | ms5803_14
  | ms5803_30
  | ms5805_02
  | ms5806_02
  | ms5837_30
deriving DecidableEq

/-- The fields of `struct ms58xx_dev_s` relevant to the core routines
(the bus handle and address are abstracted away by the transaction
outcomes; the dead `crcindex`/`crcshift` struct fields, which the code
shadows with locals, are omitted). -/
structure Dev where
  model : Model
  osr : Nat := 0
  delay : Nat := 0
  temp : Int := 0
  press : Int := 0
  c1 : Nat := 0
  c2 : Nat := 0
  c3 : Nat := 0
  c4 : Nat := 0
  c5 : Nat := 0
  c6 : Nat := 0
  c7 : Nat := 0
  c8 : Nat := 0
  c1s : Nat := 0
  c2s : Nat := 0
  c3s : Nat := 0
  c4s : Nat := 0
  diffmull : Nat := 0
  diffdivls : Nat := 0
  offmull : Nat := 0
  offdivls : Nat := 0
  sensmull : Nat := 0
  sensdivls : Nat := 0
  offmulvl : Nat := 0
  sensmulvl : Nat := 0
  diffmulh : Nat := 0
  diffdivhs : Nat := 0
  offmulh : Nat := 0
  offdivhs : Nat := 0
  sensmulh : Nat := 0
  sensdivhs : Nat := 0
  pressdivs : Nat := 0
deriving DecidableEq

/-! ## CRC calculation (`ms58xx_crc`) -/

/-- One iteration of the inner `for (j = 0; j < 8; j++)` loop of
`ms58xx_crc`: record whether bit 15 is set, shift left by one within
`uint16_t`, and XOR `0x3000` when the recorded bit was set. -/
def crcShiftStep (c : Nat) : Nat :=
  if c &&& 0x8000 ≠ 0 then ((c <<< 1) % 65536) ^^^ 0x3000
  else (c <<< 1) % 65536

/-- Runs `n` iterations of the inner shift loop. -/
def crcShifts : Nat → Nat → Nat
  | 0, c => c
  | n + 1, c => crcShifts n (crcShiftStep c)

/-- One iteration of the outer byte loop of `ms58xx_crc`:
`crc ^= src[i]` followed by eight shift iterations. -/
def crcByte (crc b : Nat) : Nat := crcShifts 8 (crc ^^^ b)

/-- Embedding of `ms58xx_crc`: fold the byte loop over the source bytes and return
the top four bits of the final 16-bit register. -/
def ms58xx_crc (src : List Nat) : Nat := (src.foldl crcByte 0) >>> 12

/-! ## I2C register read helpers -/

/-- Outcome of one `ms58xx_readu16` transaction pair: the return codes
of the `I2C_WRITE` of the register address and of the `I2C_READ`, and
the two bytes delivered into `buffer`. -/
structure Read16 where
  wret : Int
  rret : Int
  b0 : Nat
  b1 : Nat

/-- Embedding of `ms58xx_readu16` on the outcome of read number `i` (register
`MS58XX_PROM_REG + i*2`): propagate a failed write or read, otherwise
assemble `(uint16_t)buffer[0] << 8 | (uint16_t)buffer[1]`. -/
def ms58xx_readu16 (bus : Nat → Read16) (i : Nat) : Except Int Nat :=
  let t := bus i
  if t.wret < 0 then .error t.wret
  else if t.rret < 0 then .error t.rret
  else .ok (((t.b0 % 256) <<< 8) ||| (t.b1 % 256))

/-- The `for (i = 0; i < len; i++)` read loop of `ms58xx_readprom`:
read `n` consecutive 16-bit words starting at word index `i`,
returning the first failure's code. -/
def readSeq (bus : Nat → Read16) : Nat → Nat → Except Int (List Nat)
  | _, 0 => .ok []
  | i, n + 1 =>
    match ms58xx_readu16 bus i with
    | .error e => .error e
    | .ok w =>
      match readSeq bus (i + 1) n with
      | .error e => .error e
      | .ok ws => .ok (w :: ws)

/-! ## PROM layout and calibration loading (`ms58xx_readprom`) -/

/-- The two part numbers whose PROM holds only 7 words
(`MS58XX_MODEL_MS5805_02` and `MS58XX_MODEL_MS5837_30`), selected by
the first `switch (priv->model)` of `ms58xx_readprom`. -/
def isCompact : Model → Bool
  | .ms5805_02 | .ms5837_30 => true
  | _ => false

/-- The local `len` after the first switch of `ms58xx_readprom`. -/
def lenOf (m : Model) : Nat := if isCompact m then 7 else 8

/-- The local `crcindex` after the first switch of `ms58xx_readprom`. -/
def crcindexOf (m : Model) : Nat := if isCompact m then 0 else 7

/-- The local `crcshift` after the first switch of `ms58xx_readprom`. -/
def crcshiftOf (m : Model) : Nat := if isCompact m then 12 else 0

/-- The 8-word `uint16_t prom[MS58XX_PROM_LEN]` array. -/
structure Prom where
  p0 : Nat
  p1 : Nat
  p2 : Nat
  p3 : Nat
  p4 : Nat
  p5 : Nat
  p6 : Nat
  p7 : Nat
deriving DecidableEq

/-- Assemble the `prom` array from the words actually read; a slot
beyond the list (the 8th word of a 7-word PROM, zeroed by
`prom[MS58XX_PROM_LEN-1] = 0`) is 0. -/
def promOfList (ws : List Nat) : Prom :=
  ⟨ws.getD 0 0, ws.getD 1 0, ws.getD 2 0, ws.getD 3 0,
   ws.getD 4 0, ws.getD 5 0, ws.getD 6 0, ws.getD 7 0⟩

/-- Array access `prom[i]`. -/
def Prom.get (p : Prom) : Nat → Nat
  | 0 => p.p0
  | 1 => p.p1
  | 2 => p.p2
  | 3 => p.p3
  | 4 => p.p4
  | 5 => p.p5
  | 6 => p.p6
  | _ => p.p7

/-- Array update `prom[i] = v`. -/
def Prom.put (p : Prom) (i v : Nat) : Prom :=
  match i with
  | 0 => { p with p0 := v }
  | 1 => { p with p1 := v }
  | 2 => { p with p2 := v }
  | 3 => { p with p3 := v }
  | 4 => { p with p4 := v }
  | 5 => { p with p5 := v }
  | 6 => { p with p6 := v }
  | _ => { p with p7 := v }

/-- The word-read phase of `ms58xx_readprom`: `len` words from the
bus, the remaining slot (compact family) zero. -/
def promReads (m : Model) (bus : Nat → Read16) : Except Int Prom :=
  match readSeq bus 0 (lenOf m) with
  | .error e => .error e
  | .ok ws => .ok (promOfList ws)

/-- Extraction `crc = (uint8_t)((prom[crcindex] & crcmask) >> crcshift)` with
`crcmask = 0xf << crcshift`. -/
def promCrcNibble (m : Model) (p : Prom) : Nat :=
  (p.get (crcindexOf m) &&& (0xf <<< crcshiftOf m)) >>> crcshiftOf m

/-- Masking `prom[crcindex] &= ~crcmask` (`~` within `uint16_t`). -/
def promMaskCrc (m : Model) (p : Prom) : Prom :=
  p.put (crcindexOf m)
    (p.get (crcindexOf m) &&& (0xffff ^^^ (0xf <<< crcshiftOf m)))

/-- The byte image of the `prom` array seen by
`ms58xx_crc((uint8_t *)prom, sizeof(prom))`: 16 bytes, each
`uint16_t` stored least-significant byte first (little-endian
target). -/
def promBytesLE (p : Prom) : List Nat :=
  [p.p0 % 256, p.p0 / 256 % 256, p.p1 % 256, p.p1 / 256 % 256,
   p.p2 % 256, p.p2 / 256 % 256, p.p3 % 256, p.p3 / 256 % 256,
   p.p4 % 256, p.p4 / 256 % 256, p.p5 % 256, p.p5 / 256 % 256,
   p.p6 % 256, p.p6 / 256 % 256, p.p7 % 256, p.p7 / 256 % 256]

/-- Decoding of `priv->c7` from `prom[7]` (second `switch` of
`ms58xx_readprom`). -/
def c7Of (m : Model) (w7 : Nat) : Nat :=
  match m with
  | .ms5803_07 => (w7 &&& 0x03f0) >>> 4
  | .ms5806_02 => (w7 &&& 0x0ff0) >>> 4
  | _ => 0

/-- Decoding of `priv->c8` from `prom[7]` (second `switch` of
`ms58xx_readprom`). -/
def c8Of (m : Model) (w7 : Nat) : Nat :=
  match m with
  | .ms5803_07 => (w7 &&& 0xf700) >>> 10
  | _ => 0

/-- Embedding of `ms58xx_readprom`: read the PROM words, extract and clear the CRC
nibble, compare against `ms58xx_crc` over the array bytes, and on
match store the coefficients; returns the paired (return code, device
state after the call). -/
def ms58xx_readprom (bus : Nat → Read16) (priv : Dev) : Int × Dev :=
  match promReads priv.model bus with
  | .error e => (e, priv)
  | .ok prom =>
    let crc := promCrcNibble priv.model prom
    let prom := promMaskCrc priv.model prom
    if crc ≠ ms58xx_crc (promBytesLE prom) then (-19, priv)
    else
      (0, { priv with
            c1 := prom.p1, c2 := prom.p2, c3 := prom.p3,
            c4 := prom.p4, c5 := prom.p5, c6 := prom.p6,
            c7 := c7Of priv.model prom.p7,
            c8 := c8Of priv.model prom.p7 })

/-! ## The CRC algorithm as the specification words it -/

/-- One spec shift iteration: shift the 16-bit register left one bit
and XOR `0x3000` when the bit shifted out of the top was set. -/
def specCrcShift (c : Nat) : Nat :=
  if c &&& 0x8000 ≠ 0 then ((c <<< 1) % 65536) ^^^ 0x3000
  else (c <<< 1) % 65536

/-- Spec byte step: XOR a byte into the running register, then
perform eight shift iterations. -/
def specCrcFeed (c b : Nat) : Nat := specCrcShift^[8] (c ^^^ b)

/-- The check value as the specification describes it: each 16-bit
word XOR'd in byte-by-byte MOST-significant byte first, result is
bits 15–12 of the final register. -/
def specCrcMsb (p : Prom) : Nat :=
  ([p.p0, p.p1, p.p2, p.p3, p.p4, p.p5, p.p6, p.p7].foldl
     (fun c w => specCrcFeed (specCrcFeed c (w / 256 % 256)) (w % 256)) 0) >>> 12

/-- The same word-wise check value with each word fed in
LEAST-significant byte first (the order in which the words' bytes
actually sit in memory on the little-endian target). -/
def specCrcLsb (p : Prom) : Nat :=
  ([p.p0, p.p1, p.p2, p.p3, p.p4, p.p5, p.p6, p.p7].foldl
     (fun c w => specCrcFeed (specCrcFeed c (w % 256)) (w / 256 % 256)) 0) >>> 12

/-! ## Oversampling configuration (`ms58xx_setosr`) -/

/-- Embedding of `ms58xx_setosr`: the `switch (osr)` selecting the settle delay
(with the 8192 ratio gated on the model), followed by
`priv->osr = (osr / 256 - 1) * 2` when `ret == OK`. -/
def ms58xx_setosr (priv : Dev) (osr : Nat) : Int × Dev :=
  let step : Int × Dev :=
    if osr = 256 then (0, { priv with delay := 600 })
    else if osr = 512 then (0, { priv with delay := 1170 })
    else if osr = 1024 then (0, { priv with delay := 2280 })
    else if osr = 2048 then (0, { priv with delay := 4540 })
    else if osr = 4096 then (0, { priv with delay := 9040 })
    else if osr = 8192 then
      match priv.model with
      | .ms5805_02 | .ms5837_30 => (0, { priv with delay := 18080 })
      | _ => (-22, priv)
    else (-22, priv)
  if step.1 = 0 then (step.1, { step.2 with osr := (osr / 256 - 1) * 2 })
  else step

/-! ## ADC conversion (`ms58xx_readadc`, `ms58xx_convert`) -/

/-- Outcome of one `ms58xx_readadc` call: return codes of the
`I2C_WRITE` of `MS58XX_ADC_REG` and of the 3-byte `I2C_READ`, plus
the bytes delivered. -/
structure AdcRead where
  wret : Int
  rret : Int
  b0 : Nat
  b1 : Nat
  b2 : Nat

/-- Embedding of `ms58xx_readadc`: propagate a failed write or read, otherwise
assemble the three buffer bytes most-significant first into the
24-bit raw value. -/
def ms58xx_readadc (a : AdcRead) : Except Int Nat :=
  if a.wret < 0 then .error a.wret
  else if a.rret < 0 then .error a.rret
  else .ok (((a.b0 % 256) <<< 16) ||| ((a.b1 % 256) <<< 8) ||| (a.b2 % 256))

/-- Outcome of one `ms58xx_convert` call: the return code of the
trigger `I2C_WRITE` of `regaddr | priv->osr`, then the
`ms58xx_readadc` phase. -/
structure Conv where
  wtrig : Int
  adc : AdcRead

/-- Embedding of `ms58xx_convert`: `ret = I2C_WRITE(trigger)` — on failure the
driver only emits a debug message and keeps going — then
`up_udelay(priv->delay)`, then `ret = ms58xx_readadc(...)`, whose
result is what the function returns. -/
def ms58xx_convert (cv : Conv) : Except Int Nat :=
  ms58xx_readadc cv.adc

/-! ## Measurement and compensation (`ms58xx_measure`) -/

/-- The first compensation step
`diff = (int32_t)rawtemp - (int32_t)priv->c5 / ((int32_t)1 << 8)`
(C precedence: the division binds before the subtraction). -/
def ms58xx_diff (rawtemp c5 : Nat) : Int :=
  (rawtemp : Int) - Int.tdiv (c5 : Int) ((1 : Int) <<< 8)

/-- The pure compensation computation of `ms58xx_measure` from the
two raw ADC words to the `(temp, press)` pair written back into the
device state.  `vdd` stands for the build configuration constant
`CONFIG_MS58XX_VDD` (decivolts); the `#if` guard around the
MS5806-02 correction becomes a range test on it. -/
def ms58xx_compensate (priv : Dev) (vdd : Int) (rawpress rawtemp : Nat) :
    Int × Int :=
  let diff : Int := ms58xx_diff rawtemp priv.c5
  let temp : Int := 2000 + Int.tdiv (diff * (priv.c6 : Int)) ((1 : Int) <<< 23)
  let off : Int :=
    (priv.c2 : Int) * ((1 : Int) <<< (priv.c2s : Int)) +
      Int.tdiv ((priv.c4 : Int) * diff) ((1 : Int) <<< (priv.c4s : Int))
  let sens : Int :=
    (priv.c1 : Int) * ((1 : Int) <<< (priv.c1s : Int)) +
      Int.tdiv ((priv.c3 : Int) * diff) ((1 : Int) <<< (priv.c3s : Int))
  let sel : Int × Int × Int × Int × Int × Int × Int × Int :=
    if temp < 2000 then
      if temp < -1500 then
        ((priv.diffmull : Int), (1 : Int) <<< (priv.diffdivls : Int),
         (priv.offmull : Int), (1 : Int) <<< (priv.offdivls : Int),
         (priv.sensmull : Int), (1 : Int) <<< (priv.sensdivls : Int),
         (priv.offmulvl : Int), (priv.sensmulvl : Int))
      else
        ((priv.diffmull : Int), (1 : Int) <<< (priv.diffdivls : Int),
         (priv.offmull : Int), (1 : Int) <<< (priv.offdivls : Int),
         (priv.sensmull : Int), (1 : Int) <<< (priv.sensdivls : Int),
         0, 0)
    else
      ((priv.diffmulh : Int), (1 : Int) <<< (priv.diffdivhs : Int),
       (priv.offmulh : Int), (1 : Int) <<< (priv.offdivhs : Int),
       (priv.sensmulh : Int), (1 : Int) <<< (priv.sensdivhs : Int),
       0, 0)
  let diffmul := sel.1
  let diffdiv := sel.2.1
  let offmula := sel.2.2.1
  let offdiva := sel.2.2.2.1
  let sensmula := sel.2.2.2.2.1
  let sensdiva := sel.2.2.2.2.2.1
  let offmulb := sel.2.2.2.2.2.2.1
  let sensmulb := sel.2.2.2.2.2.2.2
  let tm : Int := (temp - 2000) * (temp - 2000)
  let tp : Int := (temp + 1500) * (temp + 1500)
  let off := off - (Int.tdiv (offmula * tm) offdiva + offmulb * tp)
  let sens := sens - (Int.tdiv (sensmula * tm) sensdiva + sensmulb * tp)
  let temp := temp - Int.tdiv (diffmul * diff * diff) diffdiv
  let press : Int :=
    Int.tdiv (Int.tdiv ((rawpress : Int) * sens) ((1 : Int) <<< 21) - off)
      ((1 : Int) <<< (priv.pressdivs : Int))
  let press : Int :=
    match priv.model with
    | .ms5803_07 =>
      if press > 110000 then
        press +
          Int.tdiv
            ((((priv.c7 : Int) - ((1 : Int) <<< 5)) * 100 * ((1 : Int) <<< 2) -
                Int.tdiv (((priv.c8 : Int) - ((1 : Int) <<< 5)) * (temp - 2000))
                  ((1 : Int) <<< 4)) *
              (press - 110000))
            49000000
      else press
    | .ms5806_02 =>
      if 22 ≤ vdd ∧ vdd ≤ 30 then
        press + Int.tdiv ((30 - vdd) * (priv.c7 : Int)) (((1 : Int) <<< 6) * 10)
      else press
    | _ => press
  (temp, press)

/-- Embedding of `ms58xx_measure`: convert pressure, then temperature; on a failed
conversion return its error with the device state untouched;
otherwise run the compensation and store `priv->temp`/`priv->press`. -/
def ms58xx_measure (priv : Dev) (vdd : Int) (cvPress cvTemp : Conv) :
    Int × Dev :=
  match ms58xx_convert cvPress with
  | .error e => (e, priv)
  | .ok rawpress =>
    match ms58xx_convert cvTemp with
    | .error e => (e, priv)
    | .ok rawtemp =>
      let tp := ms58xx_compensate priv vdd rawpress rawtemp
      (0, { priv with temp := tp.1, press := tp.2 })

/-! ## Construction-time (model, address) validation -/

/-- Modelled from the spec: the two legal 7-bit bus addresses
`MS58XX_ADDR0` (the primary address) and `MS58XX_ADDR1` are defined
in the public header `include/nuttx/sensors/ms58xx.h`, which is not
among the provided sources; only their distinctness matters to the
validation predicate.  This is the primary address. -/
def MS58XX_ADDR0 : Nat := 0x76

/-- Modelled from the spec: the secondary bus address (see
`MS58XX_ADDR0`). -/
def MS58XX_ADDR1 : Nat := 0x77

/-- The two low-power variants that accept only the primary address. -/
def isLowPower : Model → Bool
  | .ms5805_02 | .ms5837_30 => true
  | _ => false

/-- The `DEBUGASSERT` condition of `ms58xx_register` validating the
(model, address) pair; a pairing for which this is `false` is
rejected and no device instance is created. -/
def ms58xx_register_assert (m : Model) (addr : Nat) : Bool :=
  (decide (m = .ms5803_02) || decide (m = .ms5803_05) ||
   decide (m = .ms5803_07) || decide (m = .ms5803_14) ||
   decide (m = .ms5803_30) || decide (m = .ms5806_02)) &&
    (decide (addr = MS58XX_ADDR0) || decide (addr = MS58XX_ADDR1)) ||
  (decide (m = .ms5805_02) || decide (m = .ms5837_30)) &&
    decide (addr = MS58XX_ADDR0)

/-! ## Helper lemmas -/

lemma ms58xx_readu16_error_neg (bus : Nat → Read16) (i : Nat) (e : Int)
    (h : ms58xx_readu16 bus i = .error e) : e < 0 := by
  unfold ms58xx_readu16 at h
  dsimp only at h
  split_ifs at h with h1 h2
  · injection h with h'; exact h' ▸ h1
  · injection h with h'; exact h' ▸ h2

lemma readSeq_error_neg (bus : Nat → Read16) (e : Int) :
    ∀ n i, readSeq bus i n = .error e → e < 0 := by
  intro n
  induction n with
  | zero => intro i h; cases h
  | succ n ih =>
    intro i h
    unfold readSeq at h
    cases hu : ms58xx_readu16 bus i with
    | error e' =>
      rw [hu] at h
      injection h with h'
      exact h' ▸ ms58xx_readu16_error_neg bus i e' hu
    | ok w =>
      rw [hu] at h
      cases hr : readSeq bus (i + 1) n with
      | error e' =>
        rw [hr] at h
        injection h with h'
        exact ih (i + 1) (h' ▸ hr)
      | ok ws => rw [hr] at h; cases h

lemma readSeq_length (bus : Nat → Read16) :
    ∀ n i ws, readSeq bus i n = .ok ws → ws.length = n := by
  intro n
  induction n with
  | zero => intro i ws h; cases h; rfl
  | succ n ih =>
    intro i ws h
    unfold readSeq at h
    cases hu : ms58xx_readu16 bus i with
    | error e' => rw [hu] at h; cases h
    | ok w =>
      rw [hu] at h
      cases hr : readSeq bus (i + 1) n with
      | error e' => rw [hr] at h; cases h
      | ok ws' =>
        rw [hr] at h
        cases h
        simpa using ih (i + 1) ws' hr

lemma readSeq_congr (bus bus' : Nat → Read16) :
    ∀ n i, (∀ j, i ≤ j → j < i + n → bus j = bus' j) →
      readSeq bus i n = readSeq bus' i n := by
  intro n
  induction n with
  | zero => intro i _; rfl
  | succ n ih =>
    intro i hag
    have h0 : bus i = bus' i := hag i (Nat.le_refl i) (by omega)
    have hu : ms58xx_readu16 bus i = ms58xx_readu16 bus' i := by
      unfold ms58xx_readu16; rw [h0]
    have hrest : readSeq bus (i + 1) n = readSeq bus' (i + 1) n :=
      ih (i + 1) (fun j h1 h2 => hag j (by omega) (by omega))
    unfold readSeq
    rw [hu, hrest]

lemma promReads_error_neg (m : Model) (bus : Nat → Read16) (e : Int)
    (h : promReads m bus = .error e) : e < 0 := by
  unfold promReads at h
  cases hr : readSeq bus 0 (lenOf m) with
  | error e' =>
    rw [hr] at h
    injection h with h'
    exact h' ▸ readSeq_error_neg bus e' (lenOf m) 0 hr
  | ok ws => rw [hr] at h; cases h

lemma promReads_congr (m : Model) (bus bus' : Nat → Read16)
    (h : ∀ i, i < lenOf m → bus i = bus' i) :
    promReads m bus = promReads m bus' := by
  unfold promReads
  rw [readSeq_congr bus bus' (lenOf m) 0 (fun j _ h2 => h j (by omega))]

lemma ms58xx_readprom_congr (bus bus' : Nat → Read16) (priv : Dev)
    (h : ∀ i, i < lenOf priv.model → bus i = bus' i) :
    ms58xx_readprom bus priv = ms58xx_readprom bus' priv := by
  unfold ms58xx_readprom
  rw [promReads_congr priv.model bus bus' h]

lemma promMaskCrc_mid (m : Model) (p : Prom) :
    (promMaskCrc m p).p1 = p.p1 ∧ (promMaskCrc m p).p2 = p.p2 ∧
    (promMaskCrc m p).p3 = p.p3 ∧ (promMaskCrc m p).p4 = p.p4 ∧
    (promMaskCrc m p).p5 = p.p5 ∧ (promMaskCrc m p).p6 = p.p6 := by
  cases hc : isCompact m <;>
    simp [promMaskCrc, crcindexOf, crcshiftOf, hc, Prom.put, Prom.get]

set_option maxRecDepth 10000 in
lemma crc_promBytesLE_eq_specCrcLsb (p : Prom) :
    ms58xx_crc (promBytesLE p) = specCrcLsb p := rfl

/-- A bus on which every PROM transaction's write phase fails with
`-EIO`. -/
def busFail : Nat → Read16 := fun _ => ⟨-5, 0, 0, 0⟩

/-- A bus delivering the given 16-bit words (high byte first in each
transaction buffer, as `ms58xx_readu16` expects); words beyond the
list are 0. -/
def busOfWords (ws : List Nat) : Nat → Read16 :=
  fun i => ⟨0, 0, ws.getD i 0 / 256, ws.getD i 0 % 256⟩

/-- A device freshly constructed for the 8-word model MS5803-02. -/
def devA : Dev := { model := Model.ms5803_02 }

/-- A device freshly constructed for the 7-word (compact) model
MS5805-02. -/
def devB : Dev := { model := Model.ms5805_02 }

/-! ## C3: calibration loading is all-or-nothing -/

/-- C3: if any PROM bus read fails, `ms58xx_readprom` returns that
bus error and the device state (in particular the stored coefficients
C1..C8) is exactly as before; if the reads succeed but the extracted
CRC nibble differs from the CRC recomputed over the masked block, it
returns `-ENODEV` with the state likewise unchanged; and it returns
success only when the extracted nibble equals the recomputed CRC. -/
theorem readprom_all_or_nothing (bus : Nat → Read16) (priv : Dev) :
    (∀ e : Int, promReads priv.model bus = .error e →
       ms58xx_readprom bus priv = (e, priv)) ∧
    (∀ p : Prom, promReads priv.model bus = .ok p →
       promCrcNibble priv.model p ≠
         ms58xx_crc (promBytesLE (promMaskCrc priv.model p)) →
       ms58xx_readprom bus priv = (-19, priv)) ∧
    ((ms58xx_readprom bus priv).1 = 0 →
       ∃ p, promReads priv.model bus = .ok p ∧
         promCrcNibble priv.model p =
           ms58xx_crc (promBytesLE (promMaskCrc priv.model p))) := by
  refine ⟨?_, ?_, ?_⟩
  · intro e h
    unfold ms58xx_readprom
    rw [h]
  · intro p h hne
    unfold ms58xx_readprom
    rw [h]
    simp [hne]
  · intro h
    unfold ms58xx_readprom at h
    cases hp : promReads priv.model bus with
    | error e =>
      rw [hp] at h
      have : e < 0 := promReads_error_neg priv.model bus e hp
      simp at h
      omega
    | ok p =>
      rw [hp] at h
      by_cases hc : promCrcNibble priv.model p =
          ms58xx_crc (promBytesLE (promMaskCrc priv.model p))
      · exact ⟨p, rfl, hc⟩
      · simp [hc] at h

/-- C3 witness: on a bus whose first PROM read fails with `-EIO`, the
loader returns `-5` and leaves the device state untouched. -/
theorem readprom_all_or_nothing_witness :
    ms58xx_readprom busFail devA = (-5, devA) :=
  (readprom_all_or_nothing busFail devA).1 (-5) rfl

/-! ## C4: the CRC check value the loader compares -/

/-- C4 (amended): over the calibration block with the CRC field
masked to zero, the value `ms58xx_readprom` compares against the
extracted nibble is the word-wise check value with each 16-bit word
fed in LEAST-significant byte first (the little-endian memory order
of the `uint16_t` array), and the loader accepts exactly when the
extracted nibble equals that LSB-first value. -/
theorem readprom_check_value_lsb (bus : Nat → Read16) (priv : Dev) (prom : Prom)
    (h : promReads priv.model bus = .ok prom) :
    ms58xx_crc (promBytesLE (promMaskCrc priv.model prom)) =
      specCrcLsb (promMaskCrc priv.model prom) ∧
    ((ms58xx_readprom bus priv).1 = 0 ↔
      promCrcNibble priv.model prom =
        specCrcLsb (promMaskCrc priv.model prom)) := by
  refine ⟨crc_promBytesLE_eq_specCrcLsb _, ?_⟩
  rw [← crc_promBytesLE_eq_specCrcLsb (promMaskCrc priv.model prom)]
  unfold ms58xx_readprom
  rw [h]
  by_cases hc : promCrcNibble priv.model prom =
      ms58xx_crc (promBytesLE (promMaskCrc priv.model prom))
  · simp [hc]
  · simp [hc]

set_option maxRecDepth 10000 in
/-- C4 witness: a block whose stored nibble (14) equals the LSB-first
check value of the masked block is accepted by the loader. -/
theorem readprom_check_value_lsb_witness :
    (ms58xx_readprom (busOfWords [1, 0, 0, 0, 0, 0, 0, 14]) devA).1 = 0 :=
  (readprom_check_value_lsb (busOfWords [1, 0, 0, 0, 0, 0, 0, 14]) devA
      ⟨1, 0, 0, 0, 0, 0, 0, 14⟩ rfl).2.mpr (by decide)

set_option maxRecDepth 10000 in
/-- C4 counterexample: for the block `[1,0,0,0,0,0,0,8]` on the
MS5803-02, the stored nibble (8) is exactly the MSB-first check value
of the masked block, so under the claim the loader would accept; but
the value the loader actually compares differs from the MSB-first
value and the loader rejects the block with `-ENODEV`. -/
theorem readprom_check_value_msb_counterexample :
    promReads Model.ms5803_02 (busOfWords [1, 0, 0, 0, 0, 0, 0, 8]) =
      .ok ⟨1, 0, 0, 0, 0, 0, 0, 8⟩ ∧
    promCrcNibble Model.ms5803_02 ⟨1, 0, 0, 0, 0, 0, 0, 8⟩ =
      specCrcMsb (promMaskCrc Model.ms5803_02 ⟨1, 0, 0, 0, 0, 0, 0, 8⟩) ∧
    ms58xx_crc (promBytesLE (promMaskCrc Model.ms5803_02 ⟨1, 0, 0, 0, 0, 0, 0, 8⟩)) ≠
      specCrcMsb (promMaskCrc Model.ms5803_02 ⟨1, 0, 0, 0, 0, 0, 0, 8⟩) ∧
    ms58xx_readprom (busOfWords [1, 0, 0, 0, 0, 0, 0, 8]) devA = (-19, devA) :=
  ⟨rfl, by decide, by decide, by decide⟩

/-! ## C7: model-dependent PROM layout -/

/-- C7: for the compact family the loader consults only the first 7
bus reads, the 8th word of the block is zero, and the CRC nibble is
bits 15–12 of word 0; for every other model it consults the 8 bus
reads and the CRC nibble is bits 3–0 of word 7; and on success the
stored C1–C6 are words 1–6 of the block verbatim. -/
theorem readprom_word_layout (bus : Nat → Read16) (priv : Dev) :
    (isCompact priv.model = true →
       (∀ bus', (∀ i, i < 7 → bus i = bus' i) →
          ms58xx_readprom bus priv = ms58xx_readprom bus' priv) ∧
       (∀ p, promReads priv.model bus = .ok p →
          p.p7 = 0 ∧
          promCrcNibble priv.model p = (p.p0 &&& 0xf000) >>> 12)) ∧
    (isCompact priv.model = false →
       (∀ bus', (∀ i, i < 8 → bus i = bus' i) →
          ms58xx_readprom bus priv = ms58xx_readprom bus' priv) ∧
       (∀ p, promReads priv.model bus = .ok p →
          promCrcNibble priv.model p = p.p7 &&& 0xf)) ∧
    (∀ d, ms58xx_readprom bus priv = (0, d) →
       ∃ p, promReads priv.model bus = .ok p ∧
         d.c1 = p.p1 ∧ d.c2 = p.p2 ∧ d.c3 = p.p3 ∧
         d.c4 = p.p4 ∧ d.c5 = p.p5 ∧ d.c6 = p.p6) := by
  refine ⟨fun hc => ⟨?_, ?_⟩, fun hc => ⟨?_, ?_⟩, ?_⟩
  · intro bus' hag
    exact ms58xx_readprom_congr bus bus' priv
      (by simpa [lenOf, hc] using hag)
  · intro p hp
    unfold promReads at hp
    cases hr : readSeq bus 0 (lenOf priv.model) with
    | error e => rw [hr] at hp; cases hp
    | ok ws =>
      rw [hr] at hp
      injection hp with hp'
      have hlen : ws.length = 7 := by
        simpa [lenOf, hc] using readSeq_length bus (lenOf priv.model) 0 ws hr
      constructor
      · rw [← hp']
        show ws.getD 7 0 = 0
        exact List.getD_eq_default ws 0 (by omega)
      · simp [promCrcNibble, crcindexOf, crcshiftOf, hc, Prom.get]
  · intro bus' hag
    exact ms58xx_readprom_congr bus bus' priv
      (by simpa [lenOf, hc] using hag)
  · intro p hp
    simp [promCrcNibble, crcindexOf, crcshiftOf, hc, Prom.get]
  · intro d h
    unfold ms58xx_readprom at h
    cases hp : promReads priv.model bus with
    | error e =>
      rw [hp] at h
      have : e < 0 := promReads_error_neg priv.model bus e hp
      have he : e = 0 := congrArg Prod.fst h
      omega
    | ok p =>
      rw [hp] at h
      by_cases hcrc : promCrcNibble priv.model p =
          ms58xx_crc (promBytesLE (promMaskCrc priv.model p))
      · refine ⟨p, rfl, ?_⟩
        have hm := promMaskCrc_mid priv.model p
        simp only [hcrc, ne_eq, not_true_eq_false, if_false, ite_false] at h
        have hd : d = { priv with
            c1 := (promMaskCrc priv.model p).p1,
            c2 := (promMaskCrc priv.model p).p2,
            c3 := (promMaskCrc priv.model p).p3,
            c4 := (promMaskCrc priv.model p).p4,
            c5 := (promMaskCrc priv.model p).p5,
            c6 := (promMaskCrc priv.model p).p6,
            c7 := c7Of priv.model (promMaskCrc priv.model p).p7,
            c8 := c8Of priv.model (promMaskCrc priv.model p).p7 } := by
          have := congrArg Prod.snd h
          simp at this
          exact this.symm
        rw [hd]
        exact ⟨hm.1, hm.2.1, hm.2.2.1, hm.2.2.2.1, hm.2.2.2.2.1, hm.2.2.2.2.2⟩
      · simp [hcrc] at h

set_option maxRecDepth 4000 in
/-- C7 witness: the all-zero 7-word block on the compact MS5805-02
has word 8 equal to zero and its CRC nibble taken from bits 15–12 of
word 0. -/
theorem readprom_word_layout_witness :
    (⟨0, 0, 0, 0, 0, 0, 0, 0⟩ : Prom).p7 = 0 ∧
    promCrcNibble devB.model ⟨0, 0, 0, 0, 0, 0, 0, 0⟩ =
      (((⟨0, 0, 0, 0, 0, 0, 0, 0⟩ : Prom).p0 &&& 0xf000) >>> 12) :=
  ((readprom_word_layout (busOfWords []) devB).1 rfl).2
    ⟨0, 0, 0, 0, 0, 0, 0, 0⟩ rfl

/-! ## C5/C6: oversampling configuration -/

/-- C5: `ms58xx_setosr` maps the five ratios 256..4096 to the delays
600, 1170, 2280, 4540, 9040 µs and the selector `(osr/256 - 1) * 2`
for every model; 8192 maps to 18080 µs and selector 62 exactly on the
two models that support it and is rejected with `-EINVAL` on every
other model; every ratio outside the set is rejected with `-EINVAL`
for every model. -/
theorem setosr_ratio_table (priv : Dev) :
    ms58xx_setosr priv 256 =
      (0, { priv with delay := 600, osr := (256 / 256 - 1) * 2 }) ∧
    ms58xx_setosr priv 512 =
      (0, { priv with delay := 1170, osr := (512 / 256 - 1) * 2 }) ∧
    ms58xx_setosr priv 1024 =
      (0, { priv with delay := 2280, osr := (1024 / 256 - 1) * 2 }) ∧
    ms58xx_setosr priv 2048 =
      (0, { priv with delay := 4540, osr := (2048 / 256 - 1) * 2 }) ∧
    ms58xx_setosr priv 4096 =
      (0, { priv with delay := 9040, osr := (4096 / 256 - 1) * 2 }) ∧
    ((priv.model = .ms5805_02 ∨ priv.model = .ms5837_30) →
       ms58xx_setosr priv 8192 =
         (0, { priv with delay := 18080, osr := 62 })) ∧
    (priv.model ≠ .ms5805_02 → priv.model ≠ .ms5837_30 →
       ms58xx_setosr priv 8192 = (-22, priv)) ∧
    (∀ r, r ∉ ([256, 512, 1024, 2048, 4096, 8192] : List Nat) →
       ms58xx_setosr priv r = (-22, priv)) := by
  refine ⟨rfl, rfl, rfl, rfl, rfl, ?_, ?_, ?_⟩
  · rintro (hm | hm) <;> simp [ms58xx_setosr, hm]
  · intro hm1 hm2
    rcases hmm : priv.model
    case ms5805_02 => exact absurd hmm hm1
    case ms5837_30 => exact absurd hmm hm2
    all_goals simp [ms58xx_setosr, hmm]
  · intro r hr
    simp only [List.mem_cons, List.mem_singleton, not_or] at hr
    obtain ⟨h1, h2, h3, h4, h5, h6⟩ := hr
    simp [ms58xx_setosr, h1, h2, h3, h4, h5, h6]

/-- C5 witness: on a compact-family device 8192 is accepted with an
18080 µs delay and selector 62; on the MS5803-02 it is rejected and
the ratio 300 is rejected on any model. -/
theorem setosr_ratio_table_witness :
    ms58xx_setosr devB 8192 = (0, { devB with delay := 18080, osr := 62 }) ∧
    ms58xx_setosr devA 8192 = (-22, devA) ∧
    ms58xx_setosr devA 300 = (-22, devA) :=
  ⟨(setosr_ratio_table devB).2.2.2.2.2.1 (Or.inl rfl),
   (setosr_ratio_table devA).2.2.2.2.2.2.1 (by decide) (by decide),
   (setosr_ratio_table devA).2.2.2.2.2.2.2 300 (by decide)⟩

/-- C6: whenever `ms58xx_setosr` fails validation it leaves the
device state — in particular the oversampling selector field and the
settle delay — exactly unchanged. -/
theorem setosr_failure_frame (priv : Dev) (r : Nat) :
    (ms58xx_setosr priv r).1 ≠ 0 → (ms58xx_setosr priv r).2 = priv := by
  intro h
  by_cases h1 : r = 256
  · subst h1; simp [ms58xx_setosr] at h
  by_cases h2 : r = 512
  · subst h2; simp [ms58xx_setosr] at h
  by_cases h3 : r = 1024
  · subst h3; simp [ms58xx_setosr] at h
  by_cases h4 : r = 2048
  · subst h4; simp [ms58xx_setosr] at h
  by_cases h5 : r = 4096
  · subst h5; simp [ms58xx_setosr] at h
  by_cases h6 : r = 8192
  · subst h6
    rcases hmm : priv.model <;> simp [ms58xx_setosr, hmm] at h ⊢
  · simp [ms58xx_setosr, h1, h2, h3, h4, h5, h6]

/-- C6 witness: the invalid ratio 300 leaves the device state
unchanged. -/
theorem setosr_failure_frame_witness :
    (ms58xx_setosr devA 300).2 = devA :=
  setosr_failure_frame devA 300 (by decide)

/-! ## C1: the first compensation step of measure() -/

/-- C1: at `rawtemp = 1000`, `C5 = 256`, the first step of the
compensation in `ms58xx_measure` computes
`diff = rawtemp - C5 / 2^8 = 999` — NOT `rawtemp - C5 * 2^8 = -64536`
as the specification (and the sensor datasheet formula
`dT = D2 - C5·2^8`) require: the C expression divides where the
datasheet multiplies. -/
theorem measure_diff_at_failing_input :
    ms58xx_diff 1000 256 = 999 ∧
    ms58xx_diff 1000 256 ≠ (1000 : Int) - 256 * 256 :=
  ⟨rfl, by decide⟩

/-! ## C2: the conversion sequencer on a failed trigger write -/

/-- C2: at the failing input where the trigger `I2C_WRITE` fails with
`-EIO` (`-5`) while the ADC read-back succeeds with bytes (1, 2, 3),
`ms58xx_convert` returns success with the assembled value 66051
instead of surfacing the bus error: the write-phase failure is only
logged (the `return` is missing) and its code is overwritten by the
read-back result. -/
theorem convert_at_failing_input :
    ms58xx_convert ⟨-5, ⟨0, 0, 1, 2, 3⟩⟩ = .ok 66051 := rfl

/-! ## C8: measure() is atomic in its outputs -/

/-- C8: if either conversion of `ms58xx_measure` fails, the call
returns that error and the device state — in particular the stored
temperature and pressure — is exactly the prior state; the stored
pair is overwritten only when both conversions succeed. -/
theorem measure_output_atomic (priv : Dev) (vdd : Int) (cvPress cvTemp : Conv) :
    (∀ e : Int, ms58xx_convert cvPress = .error e →
       ms58xx_measure priv vdd cvPress cvTemp = (e, priv)) ∧
    (∀ v : Nat, ∀ e : Int, ms58xx_convert cvPress = .ok v →
       ms58xx_convert cvTemp = .error e →
       ms58xx_measure priv vdd cvPress cvTemp = (e, priv)) ∧
    ((ms58xx_measure priv vdd cvPress cvTemp).1 ≠ 0 →
       (ms58xx_measure priv vdd cvPress cvTemp).2 = priv) ∧
    ((ms58xx_measure priv vdd cvPress cvTemp).1 = 0 →
       ∃ v1 v2 : Nat, ms58xx_convert cvPress = .ok v1 ∧
         ms58xx_convert cvTemp = .ok v2) := by
  refine ⟨?_, ?_, ?_, ?_⟩
  · intro e h
    unfold ms58xx_measure
    rw [h]
  · intro v e h1 h2
    unfold ms58xx_measure
    rw [h1, h2]
  · intro h
    rcases hp : ms58xx_convert cvPress with e | v1
    · have hm : ms58xx_measure priv vdd cvPress cvTemp = (e, priv) := by
        unfold ms58xx_measure; rw [hp]
      rw [hm]
    · rcases ht : ms58xx_convert cvTemp with e | v2
      · have hm : ms58xx_measure priv vdd cvPress cvTemp = (e, priv) := by
          unfold ms58xx_measure; rw [hp, ht]
        rw [hm]
      · exfalso
        apply h
        unfold ms58xx_measure
        rw [hp, ht]
  · intro h
    unfold ms58xx_measure at h
    cases hp : ms58xx_convert cvPress with
    | error e =>
      rw [hp] at h
      have : e < 0 := by
        unfold ms58xx_convert ms58xx_readadc at hp
        split_ifs at hp with ha hb
        · injection hp with h'; exact h' ▸ ha
        · injection hp with h'; exact h' ▸ hb
      simp at h
      omega
    | ok v1 =>
      rw [hp] at h
      cases ht : ms58xx_convert cvTemp with
      | error e =>
        rw [ht] at h
        have : e < 0 := by
          unfold ms58xx_convert ms58xx_readadc at ht
          split_ifs at ht with ha hb
          · injection ht with h'; exact h' ▸ ha
          · injection ht with h'; exact h' ▸ hb
        simp at h
        omega
      | ok v2 => exact ⟨v1, v2, rfl, rfl⟩

/-- C8 witness: when the pressure conversion's ADC read-back fails
with `-EIO`, `ms58xx_measure` returns `-5` and the state is the prior
state. -/
theorem measure_output_atomic_witness :
    ms58xx_measure devA 30 ⟨0, ⟨-5, 0, 0, 0, 0⟩⟩ ⟨0, ⟨0, 0, 0, 0, 0⟩⟩ =
      (-5, devA) :=
  (measure_output_atomic devA 30 ⟨0, ⟨-5, 0, 0, 0, 0⟩⟩
      ⟨0, ⟨0, 0, 0, 0, 0⟩⟩).1 (-5) rfl

/-! ## C10: measure() modifies at most temp and press -/

/-- C10: every `ms58xx_measure` call, successful or failed, yields a
device state equal to the prior state with at most the stored
temperature and pressure replaced; every other field — the
calibration coefficients C1..C8, the per-model scaling and
compensation tables, the oversampling selector and the settle delay —
is unchanged. -/
theorem measure_frame (priv : Dev) (vdd : Int) (cvPress cvTemp : Conv) :
    ∃ t p : Int, (ms58xx_measure priv vdd cvPress cvTemp).2 =
      { priv with temp := t, press := p } := by
  unfold ms58xx_measure
  cases ms58xx_convert cvPress with
  | error e => exact ⟨priv.temp, priv.press, rfl⟩
  | ok v1 =>
    cases ms58xx_convert cvTemp with
    | error e => exact ⟨priv.temp, priv.press, rfl⟩
    | ok v2 =>
      exact ⟨(ms58xx_compensate priv vdd v1 v2).1,
             (ms58xx_compensate priv vdd v1 v2).2, rfl⟩

/-! ## C9: construction-time (model, address) validation -/

/-- C9: the validation predicate of `ms58xx_register` accepts exactly
the legal combinations: every model accepts the primary address
`MS58XX_ADDR0`, the six standard (non-low-power) models additionally
accept `MS58XX_ADDR1`, and every other pairing is rejected. -/
theorem register_pair_validation (m : Model) (addr : Nat) :
    ms58xx_register_assert m addr = true ↔
      (addr = MS58XX_ADDR0 ∨
       (isLowPower m = false ∧ addr = MS58XX_ADDR1)) := by
  cases m <;>
    simp [ms58xx_register_assert, isLowPower, MS58XX_ADDR0, MS58XX_ADDR1]
